import Mathlib

/-!
Shallow embedding of the tinyrv RV32I core under study:
the instruction decoder (`Project1/src/decode.cpp`, `Core::decode`),
the execute-stage units (`Project2/src/execute.cpp`, `Core::alu_unit`,
`Core::branch_unit`, `Core::mem_access`) and the GShare / GSharePlus
branch predictors (`Project2/src/gshare.cpp`).

Machine integers (`uint32_t`) are modelled as `Nat` with an explicit
`% 2 ^ 32` at the operations where C++ wrap-around matters.  `std::vector`
indexing is modelled with `List.getD` / `List.set` (the source always
indexes in range because the indices are masked to the table sizes).
Paths on which the C++ calls `std::abort()` are modelled as an explicit
`abort` outcome; returning `nullptr` is a distinct `nullptr` outcome.
-/

namespace TinyRV

/-- ALU operations, from the `AluOp` enumeration used by the source. -/
inductive AluOp
  | NONE | ADD | SUB | AND | OR | XOR | SLL | SRL | SRA | LTI | LTU
deriving DecidableEq, Repr

/-- Branch operations, from the `BrOp` enumeration used by the source. -/
inductive BrOp
  | NONE | JAL | JALR | BEQ | BNE | BLT | BGE | BLTU | BGEU
deriving DecidableEq, Repr

/-- Instruction formats, from `enum class InstType` (`sc_instTable` values). -/
inductive InstType
  | R | I | S | B | U | J
deriving DecidableEq, Repr

/-- Execution-flag bitset, from `struct ExeFlags` (every flag is zeroed by
the `memset` in `Core::decode` before decoding sets individual flags). -/
structure ExeFlags where
  use_rd : Bool := false
  use_rs1 : Bool := false
  use_rs2 : Bool := false
  use_imm : Bool := false
  alu_s1_PC : Bool := false
  alu_s1_rs1 : Bool := false
  alu_s1_inv : Bool := false
  alu_s2_imm : Bool := false
  alu_s2_csr : Bool := false
  is_load : Bool := false
  is_store : Bool := false
  is_csr : Bool := false
  is_exit : Bool := false
deriving DecidableEq, Repr

/-- The decoded instruction record (`class Instr`), with the fields filled
in by `Core::decode` through the `set*` calls at its end. -/
structure Instr where
  opcode : Nat
  rd : Nat
  rs1 : Nat
  rs2 : Nat
  imm : Nat
  func3 : Nat
  func7 : Nat
  aluOp : AluOp
  brOp : BrOp
  exeFlags : ExeFlags
deriving DecidableEq, Repr

/-- Result of `Core::decode`: a decoded instruction, the `nullptr` returned
for an opcode absent from `sc_instTable`, or a `std::abort()` path. -/
inductive DecodeResult
  | ok (i : Instr)
  | nullptr
  | abort
deriving DecidableEq, Repr

/-- Modelled from the spec: the numeric values of the `Opcode` enumeration
live in `types.h`, which is not under `src/`; they are the standard RV32I
major opcodes (the spec checks word `0x00A50533` against "the known RV32I
encoding table", which fixes `R = 0x33` etc.). -/
def OPC_R : Nat := 0x33
def OPC_L : Nat := 0x03
def OPC_I : Nat := 0x13
def OPC_S : Nat := 0x23
def OPC_B : Nat := 0x63
def OPC_LUI : Nat := 0x37
def OPC_AUIPC : Nat := 0x17
def OPC_JAL : Nat := 0x6F
def OPC_JALR : Nat := 0x67
def OPC_SYS : Nat := 0x73
def OPC_FENCE : Nat := 0x0F

/-- The opcode to instruction-format table `sc_instTable` of `decode.cpp`;
a lookup miss is the decoder's "unsupported opcode" failure. -/
def instTable (opcode : Nat) : Option InstType :=
  if opcode = OPC_R then some .R
  else if opcode = OPC_L then some .I
  else if opcode = OPC_I then some .I
  else if opcode = OPC_S then some .S
  else if opcode = OPC_B then some .B
  else if opcode = OPC_LUI then some .U
  else if opcode = OPC_AUIPC then some .U
  else if opcode = OPC_JAL then some .J
  else if opcode = OPC_JALR then some .I
  else if opcode = OPC_SYS then some .I
  else if opcode = OPC_FENCE then some .I
  else none

/-- R-type ALU dispatch, `decode.cpp` lines 489-524 (the `case Opcode::R`
switch over `func3`); when `func3 = 0` or `func3 = 5` meets a `func7` that
is neither `0x00` nor `0x20`, no assignment happens and the previous
`alu_op` value is kept (the source only prints an error on its `default`). -/
def aluOpR (func3 func7 : Nat) (alu : AluOp) : AluOp :=
  if func3 = 0 then (if func7 = 0x00 then .ADD else if func7 = 0x20 then .SUB else alu)
  else if func3 = 4 then .XOR
  else if func3 = 6 then .OR
  else if func3 = 7 then .AND
  else if func3 = 1 then .SLL
  else if func3 = 5 then (if func7 = 0x00 then .SRL else if func7 = 0x20 then .SRA else alu)
  else if func3 = 2 then .LTI
  else if func3 = 3 then .LTU
  else alu

/-- I-type ALU dispatch, `decode.cpp` lines 528-561 (the `case Opcode::I`
switch over `func3`); note that the `func3 = 1` case evaluates `AluOp::SLL`
without assigning it (source line 543), so the previous value is kept there
as well. -/
def aluOpI (func3 func7 : Nat) (alu : AluOp) : AluOp :=
  if func3 = 0 then .ADD
  else if func3 = 4 then .XOR
  else if func3 = 6 then .OR
  else if func3 = 7 then .AND
  else if func3 = 1 then alu
  else if func3 = 5 then (if func7 = 0x00 then .SRL else if func7 = 0x20 then .SRA else alu)
  else if func3 = 2 then .LTI
  else if func3 = 3 then .LTU
  else alu

/-- B-type branch dispatch, `decode.cpp` lines 567-588; `func3` values `2`
and `3` only print an error, keeping `br_op` unchanged. -/
def brOpB (func3 : Nat) (br : BrOp) : BrOp :=
  if func3 = 0 then .BEQ
  else if func3 = 1 then .BNE
  else if func3 = 4 then .BLT
  else if func3 = 5 then .BGE
  else if func3 = 6 then .BLTU
  else if func3 = 7 then .BGEU
  else br

/-- I-format immediate extraction and sign extension, `decode.cpp`
lines 327-334 (and the identical 347-354): mask twelve bits, the
`(imm << 20) >> 20` round trip on `uint32_t`, then OR in the high bits
when bit 11 is set. -/
def immI (instr_code : Nat) : Nat :=
  let imm := (instr_code >>> 20) &&& 0xFFF
  let sign_bit := imm &&& 0x800
  let imm := (((imm <<< 20) % 2 ^ 32) >>> 20)
  if sign_bit ≠ 0 then imm ||| 0xFFFFF000 else imm

/-- S-format immediate, `decode.cpp` lines 383-393. -/
def immS (instr_code : Nat) : Nat :=
  let imm_4_0 := (instr_code >>> 7) &&& 0x1F
  let imm_11_5 := (instr_code >>> 25) &&& 0x7F
  let imm := (imm_11_5 <<< 5) ||| imm_4_0
  let sign_bit := imm &&& 0x800
  if sign_bit ≠ 0 then imm ||| 0xFFFFF000 else imm

/-- B-format immediate, `decode.cpp` lines 405-423: reassembled into
bits [11:0], sign extended, then shifted left once (with `uint32_t`
wrap-around on the final shift). -/
def immB (instr_code : Nat) : Nat :=
  let imm_4_1_11 := (instr_code >>> 7) &&& 0x1F
  let imm_12_10_5 := (instr_code >>> 25) &&& 0x7F
  let imm_4_1 := (imm_4_1_11 >>> 1) &&& 0xF
  let imm_11 := imm_4_1_11 &&& 0x1
  let imm_10_5 := imm_12_10_5 &&& 0x3F
  let imm_12 := (imm_12_10_5 >>> 6) &&& 0x1
  let imm := (imm_12 <<< 11) ||| (imm_11 <<< 10) ||| (imm_10_5 <<< 4) ||| imm_4_1
  let sign_bit := imm &&& 0x800
  let imm := if sign_bit ≠ 0 then imm ||| 0xFFFFF000 else imm
  (imm <<< 1) % 2 ^ 32

/-- U-format immediate, `decode.cpp` lines 431-432. -/
def immU (instr_code : Nat) : Nat :=
  ((instr_code >>> 12) &&& 0xFFFFF) <<< 12

/-- J-format immediate, `decode.cpp` lines 441-460. -/
def immJ (instr_code : Nat) : Nat :=
  let imm := (instr_code >>> 12) &&& 0xFFFFF
  let imm_20 := (imm >>> 19) &&& 0x1
  let imm_19_12 := imm &&& 0xFF
  let imm_11 := (imm >>> 8) &&& 0x1
  let imm_10_1 := (imm >>> 9) &&& 0x3FF
  let imm := (imm_20 <<< 19) ||| (imm_19_12 <<< 11) ||| (imm_11 <<< 10) ||| imm_10_1
  let sign_bit := imm &&& 0x80000
  let imm := (((imm <<< 12) % 2 ^ 32) >>> 12)
  let imm := if sign_bit ≠ 0 then imm ||| 0xFFF00000 else imm
  (imm <<< 1) % 2 ^ 32

/-- Step 3 of `Core::decode` (lines 305-465): per-format execution flags
and immediate.  `none` models the `std::abort()` on the unreachable
`default` branches.  The `SYS` immediate assignment is a `TODO` in the
source (line 366); it is modelled from the spec as the raw I-format
immediate field (the spec distinguishes ECALL/EBREAK/URET/SRET/MRET by
the immediate values `0x000/0x001/0x002/0x102/0x302`, the raw bits
[31:20], and uses the immediate as the CSR address). -/
def decodeStep3 (instr_code opcode func3 : Nat) (inst_type : InstType) :
    Option (ExeFlags × Nat) :=
  match inst_type with
  | .R => some ({ use_rd := true, use_rs1 := true, use_rs2 := true }, 0)
  | .I =>
    if opcode = OPC_I then
      some ({ use_rd := true, use_rs1 := true, use_imm := true, alu_s2_imm := true },
            immI instr_code)
    else if opcode = OPC_L ∨ opcode = OPC_JALR then
      some ({ use_rd := true, use_rs1 := true, use_imm := true, alu_s2_imm := true },
            immI instr_code)
    else if opcode = OPC_SYS then
      some ({ use_imm := true
              use_rd := decide (func3 ≠ 0)
              use_rs1 := decide (func3 ≠ 0 ∧ func3 < 5) },
            (instr_code >>> 20) &&& 0xFFF)
    else if opcode = OPC_FENCE then
      some ({}, 0)
    else
      none
  | .S => some ({ use_rs1 := true, use_rs2 := true, use_imm := true, alu_s2_imm := true },
                immS instr_code)
  | .B => some ({ use_rs1 := true, use_rs2 := true, use_imm := true, alu_s2_imm := true },
                immB instr_code)
  | .U => some ({ use_rd := true, use_imm := true, alu_s2_imm := true }, immU instr_code)
  | .J => some ({ use_rd := true, use_imm := true, alu_s2_imm := true }, immJ instr_code)

/-- Step 4 of `Core::decode` (lines 472-680), the `switch (opcode)`
selecting `alu_op` and `br_op`.  The C++ `case Opcode::R` block (486-525)
ends without `break` and falls through into `case Opcode::I` (526-562),
which also ends without `break` and falls through into `case Opcode::B`
(563-590); the translation composes the three case bodies accordingly.
`none` models the `std::abort()` calls on the SYS paths.  The `TODO`
assignments of the source are modelled from the spec: JAL/JALR select ADD
with branch ops JAL/JALR, loads and stores select ADD (address = rs1 +
immediate). -/
def decodeStep4 (opcode func3 func7 imm : Nat) (exe_flags : ExeFlags) :
    Option (ExeFlags × AluOp × BrOp) :=
  if opcode = OPC_LUI then
    some (exe_flags, .SLL, .NONE)
  else if opcode = OPC_AUIPC then
    some ({ exe_flags with alu_s1_PC := true }, .ADD, .NONE)
  else if opcode = OPC_R then
    -- fallthrough chain: the R and I case bodies run first, but the value
    -- they assign is dead because the B case body then assigns SUB
    let _alu := aluOpI func3 func7 (aluOpR func3 func7 .NONE)
    some ({ exe_flags with alu_s1_PC := true }, .SUB, brOpB func3 .NONE)
  else if opcode = OPC_I then
    -- fallthrough chain: the I case body runs first, dead for the same reason
    let _alu := aluOpI func3 func7 .NONE
    some ({ exe_flags with alu_s1_PC := true }, .SUB, brOpB func3 .NONE)
  else if opcode = OPC_B then
    some ({ exe_flags with alu_s1_PC := true }, .SUB, brOpB func3 .NONE)
  else if opcode = OPC_JAL then
    some ({ exe_flags with alu_s1_PC := true }, .ADD, .JAL)
  else if opcode = OPC_JALR then
    some (exe_flags, .ADD, .JALR)
  else if opcode = OPC_L then
    some ({ exe_flags with is_load := true }, .ADD, .NONE)
  else if opcode = OPC_S then
    some ({ exe_flags with is_store := true }, .ADD, .NONE)
  else if opcode = OPC_SYS then
    if func3 = 0 then
      if imm = 0x000 ∨ imm = 0x001 then
        some ({ exe_flags with is_exit := true }, .ADD, .NONE)
      else if imm = 0x002 ∨ imm = 0x102 ∨ imm = 0x302 then
        some (exe_flags, .ADD, .NONE)
      else
        none
    else
      let exe_flags := { exe_flags with is_csr := true, alu_s2_csr := true }
      if func3 = 1 then some (exe_flags, .ADD, .NONE)
      else if func3 = 2 then some (exe_flags, .OR, .NONE)
      else if func3 = 3 then some ({ exe_flags with alu_s1_inv := true }, .AND, .NONE)
      else if func3 = 5 then some ({ exe_flags with alu_s1_rs1 := true }, .ADD, .NONE)
      else if func3 = 6 then some ({ exe_flags with alu_s1_rs1 := true }, .OR, .NONE)
      else if func3 = 7 then
        some ({ exe_flags with alu_s1_inv := true, alu_s1_rs1 := true }, .AND, .NONE)
      else none
  else if opcode = OPC_FENCE then
    some (exe_flags, .NONE, .NONE)
  else
    none

/-- `Core::decode` (`decode.cpp` lines 255-694): unconditional field
extraction, format lookup in `sc_instTable` (miss returns `nullptr`),
per-format flags and immediate, opcode-based operation selection, and
construction of the instruction record. -/
def decode (instr_code : Nat) : DecodeResult :=
  let opcode := instr_code &&& 0x7F
  let func3 := (instr_code >>> 12) &&& 0x7
  let func7 := (instr_code >>> 25) &&& 0x7F
  let rd := (instr_code >>> 7) &&& 0x1F
  let rs1 := (instr_code >>> 15) &&& 0x1F
  let rs2 := (instr_code >>> 20) &&& 0x1F
  match instTable opcode with
  | none => .nullptr
  | some inst_type =>
    match decodeStep3 instr_code opcode func3 inst_type with
    | none => .abort
    | some (exe_flags, imm) =>
      match decodeStep4 opcode func3 func7 imm exe_flags with
      | none => .abort
      | some (exe_flags, alu_op, br_op) =>
        .ok { opcode := opcode, rd := rd, rs1 := rs1, rs2 := rs2, imm := imm,
              func3 := func3, func7 := func7, aluOp := alu_op, brOp := br_op,
              exeFlags := exe_flags }

/-- Two's-complement reading of a 32-bit value, for the `(int32_t)` casts
of `execute.cpp`. -/
def toInt32 (x : Nat) : Int :=
  if x % 2 ^ 32 < 2 ^ 31 then (x % 2 ^ 32 : Int) else (x % 2 ^ 32 : Int) - 2 ^ 32

/-- Arithmetic right shift of a 32-bit value, for `(int32_t)alu_s1 >> alu_s2`
(`execute.cpp` line 75): floor division of the signed reading, converted back
to the unsigned representation.  C++ leaves shifts by 32 or more undefined;
the model totalizes them by the same floor division. -/
def sra32 (x n : Nat) : Nat :=
  ((Int.fdiv (toInt32 x) (2 ^ n)) % 2 ^ 32).toNat

/-- `Core::alu_unit` (`execute.cpp` lines 30-91): operand selection from the
execution flags, optional bitwise inversion of operand 1, then the
operation dispatch.  The shifts `alu_s1 << alu_s2` and `alu_s1 >> alu_s2`
apply no masking to `alu_s2`; for `alu_s2 ≥ 32` the C++ is undefined
behaviour and the model totalizes by truncation modulo `2 ^ 32`. -/
def alu_unit (instr : Instr) (rs1_data rs2_data PC : Nat) : Nat :=
  let exe_flags := instr.exeFlags
  let alu_s1 := if exe_flags.alu_s1_PC then PC
                else if exe_flags.alu_s1_rs1 then instr.rs1 else rs1_data
  let alu_s2 := if exe_flags.alu_s2_imm then instr.imm else rs2_data
  let alu_s1 := if exe_flags.alu_s1_inv then alu_s1 ^^^ 0xFFFFFFFF else alu_s1
  match instr.aluOp with
  | .NONE => 0
  | .ADD => (alu_s1 + alu_s2) % 2 ^ 32
  | .SUB => (alu_s1 + (2 ^ 32 - alu_s2 % 2 ^ 32)) % 2 ^ 32
  | .AND => alu_s1 &&& alu_s2
  | .OR => alu_s1 ||| alu_s2
  | .XOR => alu_s1 ^^^ alu_s2
  | .SLL => (alu_s1 <<< alu_s2) % 2 ^ 32
  | .SRL => alu_s1 >>> alu_s2
  | .SRA => sra32 alu_s1 alu_s2
  | .LTI => if toInt32 alu_s1 < toInt32 alu_s2 then 1 else 0
  | .LTU => if alu_s1 < alu_s2 then 1 else 0

/-- The externally observable effects of one `Core::branch_unit` call
(`execute.cpp` lines 93-169).  The fields record exactly the mutations the
C++ performs: the returned `rd_data`, the overwrite of the authoritative
`PC_` on a misprediction, the `if_id_->reset()` pipeline flush, the
`bpred_->update(PC, next_PC, br_taken)` call (made only when
`gshare_enabled` is set), and the two performance-counter increments. -/
structure BranchEffects where
  rd_data : Nat
  redirect : Option Nat
  flush : Bool
  bpred_update : Option (Nat × Nat × Bool)
  branches_incr : Bool
  miss_incr : Bool
deriving DecidableEq, Repr

/-- `Core::branch_unit`: the branch-taken predicate over `br_op`, then the
resolution block guarded by `br_op != BrOp::NONE`.  `if_id_PC` is the PC
the fetch stage speculatively holds (`if_id_->data().PC`). -/
def branch_unit (instr : Instr) (rs1_data rs2_data rd_data PC if_id_PC : Nat)
    (gshare_enabled : Bool) : BranchEffects :=
  let br_op := instr.brOp
  let br_taken : Bool :=
    match br_op with
    | .NONE => false
    | .JAL => true
    | .JALR => true
    | .BEQ => decide (rs1_data = rs2_data)
    | .BNE => decide (rs1_data ≠ rs2_data)
    | .BLT => decide (toInt32 rs1_data < toInt32 rs2_data)
    | .BGE => decide (toInt32 rs1_data ≥ toInt32 rs2_data)
    | .BLTU => decide (rs1_data < rs2_data)
    | .BGEU => decide (rs1_data ≥ rs2_data)
  if br_op = BrOp.NONE then
    { rd_data := rd_data, redirect := none, flush := false, bpred_update := none,
      branches_incr := false, miss_incr := false }
  else
    let br_target := rd_data
    let next_PC := if br_taken then br_target else (PC + 4) % 2 ^ 32
    let rd_data := if br_taken ∧ (br_op = BrOp.JAL ∨ br_op = BrOp.JALR)
                   then (PC + 4) % 2 ^ 32 else rd_data
    let mispredicted := next_PC ≠ if_id_PC
    { rd_data := rd_data
      redirect := if mispredicted then some next_PC else none
      flush := mispredicted
      bpred_update := if gshare_enabled then some (PC, next_PC, br_taken) else none
      branches_incr := true
      miss_incr := mispredicted }

/-- Little-endian read of `n` bytes starting at `addr` from a byte-addressed
memory, modelling `dmem_read(&read_data, mem_addr, data_bytes)` into a
zero-initialized `uint32_t`. -/
def readBytes (mem : Nat → Nat) (addr n : Nat) : Nat :=
  match n with
  | 0 => 0
  | k + 1 => (mem addr % 256) + 256 * readBytes mem (addr + 1) k

/-- Little-endian write of the low `n` bytes of `val`, modelling
`dmem_write(&rs2_data, mem_addr, data_bytes)`. -/
def writeBytes (mem : Nat → Nat) (addr n val : Nat) : Nat → Nat :=
  fun a => if addr ≤ a ∧ a < addr + n then (val >>> (8 * (a - addr))) &&& 0xFF else mem a

/-- Modelled from the spec: `sext` comes from `util.h`, which is not under
`src/`; per the spec it sign-extends the low `width` bits of a value to 32
bits (loads "sign-extend to 32 bits for byte/half/word signed variants"). -/
def sext (x width : Nat) : Nat :=
  if (x >>> (width - 1)) &&& 1 = 1 then (x % 2 ^ width) ||| (2 ^ 32 - 2 ^ width)
  else x % 2 ^ width

/-- Modelled from the spec: the `VX_CSR_*` addresses come from a header not
under `src/`; they are the standard RISC-V CSR numbers for the registers
the spec lists (SATP, MSTATUS, MEDELEG, MIDELEG, MIE, MTVEC, MEPC,
PMPCFG0, PMPADDR0, MNSTATUS).  `Core::set_csr` (`execute.cpp` lines
273-291) ignores writes to these and aborts on any other address. -/
def set_csr (addr _value : Nat) : Option Unit :=
  if addr = 0x180 ∨ addr = 0x300 ∨ addr = 0x302 ∨ addr = 0x303 ∨ addr = 0x304
     ∨ addr = 0x305 ∨ addr = 0x341 ∨ addr = 0x3A0 ∨ addr = 0x3B0 ∨ addr = 0x744
  then some () else none

/-- `Core::mem_access` (`execute.cpp` lines 171-220): load (with the byte
count `1 << (func3 & 0x3)` and sign/zero extension by `func3`), store, and
CSR write-back; `none` models the `std::abort()` on unsupported `func3`
values and on invalid CSR write addresses.  Returns the final `rd_data`
and the memory after a possible store. -/
def mem_access (instr : Instr) (rd_data rs2_data : Nat) (mem : Nat → Nat) :
    Option (Nat × (Nat → Nat)) :=
  let exe_flags := instr.exeFlags
  let func3 := instr.func3
  let loadRes : Option Nat :=
    if exe_flags.is_load then
      let mem_addr := rd_data
      let data_bytes := 1 <<< (func3 &&& 0x3)
      let data_width := 8 * data_bytes
      let read_data := readBytes mem mem_addr data_bytes
      if func3 = 0 ∨ func3 = 1 then some (sext read_data data_width)
      else if func3 = 2 then some (sext read_data data_width)
      else if func3 = 4 ∨ func3 = 5 then some read_data
      else none
    else some rd_data
  match loadRes with
  | none => none
  | some rd_data =>
    let storeRes : Option (Nat → Nat) :=
      if exe_flags.is_store then
        let mem_addr := rd_data
        let data_bytes := 1 <<< (func3 &&& 0x3)
        if func3 = 0 ∨ func3 = 1 ∨ func3 = 2 then
          some (writeBytes mem mem_addr data_bytes rs2_data)
        else none
      else some mem
    match storeRes with
    | none => none
    | some mem =>
      if exe_flags.is_csr then
        if rs2_data ≠ rd_data then
          match set_csr instr.imm rd_data with
          | none => none
          | some _ => some (rs2_data, mem)
        else some (rs2_data, mem)
      else some (rd_data, mem)

/-- A branch target buffer entry, `BTB_entry_t {valid, tag, br_target}`. -/
structure BTBEntry where
  valid : Bool
  tag : Nat
  br_target : Nat
deriving DecidableEq, Repr

/-- The GShare predictor state (`gshare.h` / `gshare.cpp`): branch target
buffer, pattern history table of 2-bit saturating counters, branch history
register, and the size-derived constants fixed at construction. -/
structure GShare where
  BTB : List BTBEntry
  PHT : List Nat
  BHR : Nat
  BTB_shift : Nat
  BTB_mask : Nat
  BHR_mask : Nat
deriving DecidableEq, Repr

/-- `log2ceil` from the framework's `util.h` (not under `src/`): ceiling
base-2 logarithm, used only for the BTB tag shift. -/
def log2ceil (n : Nat) : Nat := Nat.clog 2 n

/-- The `GShare` constructor (`gshare.cpp` lines 26-34): BTB entries all
invalid, every PHT counter `0x00`, BHR zero, and the masks/shift derived
from the table sizes. -/
def GShare.init (BTB_size BHR_size : Nat) : GShare :=
  { BTB := List.replicate BTB_size ⟨false, 0, 0⟩
    PHT := List.replicate (1 <<< BHR_size) 0
    BHR := 0
    BTB_shift := log2ceil BTB_size
    BTB_mask := BTB_size - 1
    BHR_mask := (1 <<< BHR_size) - 1 }

/-- The PHT index `((PC >> 2) ^ BHR_) & BHR_mask_`, computed identically by
`GShare::predict` (line 47) and by `GShare::update` (line 75, before the
BHR is advanced). -/
def GShare.predictIndex (s : GShare) (PC : Nat) : Nat :=
  ((PC >>> 2) ^^^ s.BHR) &&& s.BHR_mask

/-- `GShare::predict` (`gshare.cpp` lines 40-67): taken iff the indexed
2-bit counter is at least `0b10`; on taken, the BTB entry at
`(PC >> 2) & BTB_mask_` supplies the target only when it is valid and its
tag equals `PC >> 2 >> BTB_shift_`, otherwise `PC + 4`. -/
def GShare.predict (s : GShare) (PC : Nat) : Nat :=
  let pht_index := s.predictIndex PC
  let entry := s.PHT.getD pht_index 0
  if 2 ≤ entry then
    let btb_index := (PC >>> 2) &&& s.BTB_mask
    let e := s.BTB.getD btb_index ⟨false, 0, 0⟩
    if e.valid = true ∧ e.tag = (PC >>> 2) >>> s.BTB_shift then e.br_target
    else PC + 4
  else PC + 4

/-- The 2-bit saturating counter step of `GShare::update` (lines 81-85):
increment clamped at 3 on taken, decrement clamped at 0 on not-taken. -/
def satUpdate (entry : Nat) (taken : Bool) : Nat :=
  if taken then (if entry < 3 then entry + 1 else 3)
  else (if 0 < entry then entry - 1 else 0)

/-- `GShare::update` (`gshare.cpp` lines 69-92): the PHT index is computed
from the BHR value before the BHR is shifted, the indexed counter is
saturating-updated, and on a taken outcome the BTB entry at
`(PC >> 2) & BTB_mask_` is overwritten with `{true, PC >> 2 >> BTB_shift_,
next_PC}`. -/
def GShare.update (s : GShare) (PC next_PC : Nat) (taken : Bool) : GShare :=
  let pht_index := s.predictIndex PC
  let BHR := ((s.BHR <<< 1) ||| (if taken then 1 else 0)) &&& s.BHR_mask
  let entry := s.PHT.getD pht_index 0
  let PHT := s.PHT.set pht_index (satUpdate entry taken)
  let BTB := if taken
             then s.BTB.set ((PC >>> 2) &&& s.BTB_mask)
                    ⟨true, (PC >>> 2) >>> s.BTB_shift, next_PC⟩
             else s.BTB
  { s with BTB := BTB, PHT := PHT, BHR := BHR }

/-- `GShare::change_default_prediction` (lines 94-96): `std::fill` of the
PHT with `val`. -/
def GShare.change_default_prediction (s : GShare) (val : Nat) : GShare :=
  { s with PHT := s.PHT.map (fun _ => val) }

/-- The GSharePlus tournament predictor state (`gshare.h` / `gshare.cpp`):
two GShare sub-predictors plus the meta table of saturating counters. -/
structure GSharePlus where
  local_predictor : GShare
  global_predictor : GShare
  meta_predictor : List Nat
  meta_mask : Nat
deriving DecidableEq, Repr

/-- The `GSharePlus` constructor (`gshare.cpp` lines 99-108): a local
GShare with the caller's history width and a global one with history width
12, both with every PHT counter overridden to `0b10` via
`change_default_prediction`; every meta counter starts at `0b10`. -/
def GSharePlus.init (BTB_size BHR_size : Nat) : GSharePlus :=
  { local_predictor := (GShare.init BTB_size BHR_size).change_default_prediction 0b10
    global_predictor := (GShare.init BTB_size 12).change_default_prediction 0b10
    meta_predictor := List.replicate (1 <<< BHR_size) 0b10
    meta_mask := (1 <<< BHR_size) - 1 }

/-- `GSharePlus::predict` (`gshare.cpp` lines 114-130): query both
sub-predictors, then return the local one's output iff the meta counter at
`(PC >> 2) & meta_mask` is at least `0b10`. -/
def GSharePlus.predict (s : GSharePlus) (PC : Nat) : Nat :=
  let local_prediction := s.local_predictor.predict PC
  let global_prediction := s.global_predictor.predict PC
  let meta_index := (PC >>> 2) &&& s.meta_mask
  let meta_prediction := s.meta_predictor.getD meta_index 0
  if 2 ≤ meta_prediction then local_prediction else global_prediction

/-- `GSharePlus::update` (`gshare.cpp` lines 132-159): each sub-predictor's
implied direction is its prediction compared against `PC + 4` (computed on
the pre-update sub-predictor states); when exactly one sub-predictor was
correct the meta counter moves — the source increments it (toward the
local-selecting region) when the global one was the correct predictor and
decrements it when the local one was — and both sub-predictors then
receive the real update. -/
def GSharePlus.update (s : GSharePlus) (PC next_PC : Nat) (taken : Bool) : GSharePlus :=
  let local_prediction : Bool := decide (s.local_predictor.predict PC ≠ PC + 4)
  let global_prediction : Bool := decide (s.global_predictor.predict PC ≠ PC + 4)
  let local_correct : Bool := local_prediction = taken
  let global_correct : Bool := global_prediction = taken
  let meta_index := (PC >>> 2) &&& s.meta_mask
  let meta_prediction := s.meta_predictor.getD meta_index 0
  let meta_prediction :=
    if global_correct ∧ ¬ local_correct then
      (if meta_prediction < 3 then meta_prediction + 1 else meta_prediction)
    else if ¬ global_correct ∧ local_correct then
      (if 0 < meta_prediction then meta_prediction - 1 else meta_prediction)
    else meta_prediction
  { s with meta_predictor := s.meta_predictor.set meta_index meta_prediction
           local_predictor := s.local_predictor.update PC next_PC taken
           global_predictor := s.global_predictor.update PC next_PC taken }

/-- A finite sequence of `GShare::update` calls applied to a freshly
constructed GShare predictor. -/
def runGShare (BTB_size BHR_size : Nat) (l : List (Nat × Nat × Bool)) : GShare :=
  l.foldl (fun s u => s.update u.1 u.2.1 u.2.2) (GShare.init BTB_size BHR_size)

/-- A finite sequence of `GSharePlus::update` calls applied to a freshly
constructed GSharePlus predictor. -/
def runGSharePlus (BTB_size BHR_size : Nat) (l : List (Nat × Nat × Bool)) : GSharePlus :=
  l.foldl (fun s u => s.update u.1 u.2.1 u.2.2) (GSharePlus.init BTB_size BHR_size)

/-- A concrete local sub-predictor state: single-entry tables, counter
saturated taken, BTB holding target `100` with matching tag for `PC = 0`. -/
def gsLocalCE : GShare :=
  { BTB := [⟨true, 0, 100⟩], PHT := [3], BHR := 0,
    BTB_shift := 0, BTB_mask := 0, BHR_mask := 0 }

/-- A concrete global sub-predictor state: its counter is `0`, so it
predicts not-taken for `PC = 0`. -/
def gsGlobalCE : GShare :=
  { BTB := [⟨false, 0, 0⟩], PHT := [0], BHR := 0,
    BTB_shift := 0, BTB_mask := 0, BHR_mask := 0 }

/-- A concrete GSharePlus state combining the two states above, with the
meta counter at `2` (the region in which `predict` selects the local
sub-predictor). -/
def gspCE : GSharePlus :=
  { local_predictor := gsLocalCE, global_predictor := gsGlobalCE,
    meta_predictor := [2], meta_mask := 0 }

/-- A concrete instruction whose ALU operation is SLL and whose flags
select the plain register operands (as an R-type `SLL rd, rs1, rs2`
would). -/
def sllInstr : Instr :=
  { opcode := 0x33, rd := 1, rs1 := 2, rs2 := 3, imm := 0, func3 := 1, func7 := 0,
    aluOp := .SLL, brOp := .NONE,
    exeFlags := { use_rd := true, use_rs1 := true, use_rs2 := true } }

/-- A concrete LBU load instruction (`func3 = 4`, load flag set). -/
def loadLBU : Instr :=
  { opcode := 0x03, rd := 1, rs1 := 0, rs2 := 0, imm := 0, func3 := 4, func7 := 0,
    aluOp := .ADD, brOp := .NONE,
    exeFlags := { use_rd := true, use_rs1 := true, use_imm := true,
                  alu_s2_imm := true, is_load := true } }

/-- A concrete non-branch instruction (branch operation NONE). -/
def nonBranchInstr : Instr :=
  { opcode := 0x37, rd := 1, rs1 := 0, rs2 := 0, imm := 4096, func3 := 0, func7 := 0,
    aluOp := .SLL, brOp := .NONE,
    exeFlags := { use_rd := true, use_imm := true, alu_s2_imm := true } }

/-- A concrete GShare state whose single BTB entry is valid but carries tag
`5`, while a lookup at `PC = 0` requires tag `0`: a tag-aliasing miss. -/
def aliasGShare : GShare :=
  { BTB := [⟨true, 5, 64⟩], PHT := [3], BHR := 0,
    BTB_shift := 0, BTB_mask := 0, BHR_mask := 0 }

/-! Helper lemmas about list tables and saturating counters. -/

theorem getD_replicate (n i a d : Nat) :
    (List.replicate n a).getD i d = if i < n then a else d := by
  rw [List.getD_eq_getElem?_getD, List.getElem?_replicate]
  split <;> rfl

theorem satUpdate_le_three (e : Nat) (t : Bool) (he : e ≤ 3) : satUpdate e t ≤ 3 := by
  simp only [satUpdate]
  split_ifs <;> omega

theorem getD_le_three (l : List Nat) (i : Nat) (h : ∀ x ∈ l, x ≤ 3) :
    l.getD i 0 ≤ 3 := by
  rw [List.getD_eq_getElem?_getD]
  cases hm : l[i]? with
  | none => simp
  | some v =>
    have hv : v ∈ l := List.getElem?_mem hm
    simpa using h v hv

theorem GShare.update_PHT_bounded (s : GShare) (PC next_PC : Nat) (taken : Bool)
    (h : ∀ x ∈ s.PHT, x ≤ 3) :
    ∀ x ∈ (s.update PC next_PC taken).PHT, x ≤ 3 := by
  intro x hx
  simp only [GShare.update] at hx
  rcases List.mem_or_eq_of_mem_set hx with h1 | h1
  · exact h x h1
  · subst h1
    exact satUpdate_le_three _ _ (getD_le_three _ _ h)

theorem runGShare_cons_bounded (l : List (Nat × Nat × Bool)) :
    ∀ s : GShare, (∀ x ∈ s.PHT, x ≤ 3) →
      ∀ x ∈ (l.foldl (fun s u => s.update u.1 u.2.1 u.2.2) s).PHT, x ≤ 3 := by
  induction l with
  | nil => intro s hs; exact hs
  | cons u l ih =>
    intro s hs
    exact ih _ (GShare.update_PHT_bounded s u.1 u.2.1 u.2.2 hs)

theorem GSharePlus.update_meta_bounded (s : GSharePlus) (PC next_PC : Nat)
    (taken : Bool) (h : ∀ x ∈ s.meta_predictor, x ≤ 3) :
    ∀ x ∈ (s.update PC next_PC taken).meta_predictor, x ≤ 3 := by
  intro x hx
  simp only [GSharePlus.update] at hx
  rcases List.mem_or_eq_of_mem_set hx with h1 | h1
  · exact h x h1
  · subst h1
    have hd := getD_le_three s.meta_predictor ((PC >>> 2) &&& s.meta_mask) h
    split_ifs <;> omega

theorem runGSharePlus_bounded (l : List (Nat × Nat × Bool)) :
    ∀ s : GSharePlus,
      (∀ x ∈ s.meta_predictor, x ≤ 3) →
      (∀ x ∈ s.local_predictor.PHT, x ≤ 3) →
      (∀ x ∈ s.global_predictor.PHT, x ≤ 3) →
      (∀ x ∈ (l.foldl (fun s u => s.update u.1 u.2.1 u.2.2) s).meta_predictor, x ≤ 3)
      ∧ (∀ x ∈ (l.foldl (fun s u => s.update u.1 u.2.1 u.2.2) s).local_predictor.PHT, x ≤ 3)
      ∧ (∀ x ∈ (l.foldl (fun s u => s.update u.1 u.2.1 u.2.2) s).global_predictor.PHT, x ≤ 3) := by
  induction l with
  | nil => intro s h1 h2 h3; exact ⟨h1, h2, h3⟩
  | cons u l ih =>
    intro s h1 h2 h3
    exact ih _ (GSharePlus.update_meta_bounded s u.1 u.2.1 u.2.2 h1)
      (GShare.update_PHT_bounded _ u.1 u.2.1 u.2.2 h2)
      (GShare.update_PHT_bounded _ u.1 u.2.1 u.2.2 h3)

theorem init_PHT_bounded (b h : Nat) : ∀ x ∈ (GShare.init b h).PHT, x ≤ 3 := by
  intro x hx
  simp only [GShare.init, List.mem_replicate] at hx
  omega

theorem change_default_bounded (s : GShare) (v : Nat) (hv : v ≤ 3) :
    ∀ x ∈ (s.change_default_prediction v).PHT, x ≤ 3 := by
  intro x hx
  simp only [GShare.change_default_prediction, List.mem_map] at hx
  obtain ⟨_, _, rfl⟩ := hx
  exact hv

/-! Claim theorems. -/

/-- Claim C1 (code evaluation at the failing input): decoding the R-type
word `0x00A50533` (`add x10, x10, x10`) yields the right format, fields
and register indices, but — because the `case Opcode::R` and
`case Opcode::I` blocks of the step-4 switch in `Core::decode` end without
`break` and fall through into the B-type case — the ALU operation comes out
as SUB with branch operation BEQ (and the `alu_s1_PC` flag set), not the
R-type table's ADD with branch operation NONE that the claim states. -/
theorem claim_C1_decode_R_word_falls_through :
    decode 0x00A50533 = DecodeResult.ok
      { opcode := 0x33, rd := 10, rs1 := 10, rs2 := 10, imm := 0,
        func3 := 0, func7 := 0, aluOp := AluOp.SUB, brOp := BrOp.BEQ,
        exeFlags := { use_rd := true, use_rs1 := true, use_rs2 := true,
                      alu_s1_PC := true } } := by
  decide

/-- Claim C2 (code evaluation at the failing input): in the state `gspCE`
the local sub-predictor's implied prediction for `PC = 0` is taken
(it returns `100 ≠ 0 + 4`), the global one's is not-taken (it returns
`0 + 4`), and the meta counter is `2`, the region in which
`GSharePlus::predict` selects the local sub-predictor.  For the actual
outcome not-taken, exactly the global sub-predictor is correct, so the
claim requires the meta counter to move toward the global-selecting
region (below 2); `GSharePlus::update` instead increments it to `3`,
further toward selecting the incorrect local sub-predictor. -/
theorem claim_C2_meta_counter_moves_toward_wrong_predictor :
    gspCE.local_predictor.predict 0 ≠ 0 + 4
    ∧ gspCE.global_predictor.predict 0 = 0 + 4
    ∧ GSharePlus.predict gspCE 0 = gspCE.local_predictor.predict 0
    ∧ gspCE.meta_predictor.getD ((0 >>> 2) &&& gspCE.meta_mask) 0 = 2
    ∧ (gspCE.update 0 4 false).meta_predictor.getD ((0 >>> 2) &&& gspCE.meta_mask) 0 = 3 := by
  decide

/-- Claim C3 (code evaluation at the failing input): `Core::alu_unit`
applies no five-bit masking to the shift amount, so an SLL with operand 2
equal to 32 does not behave as a shift by 0: under the wrap-around model
of the unmasked C++ shift, `1 << 32` yields `0` while `1 << 0` yields `1`
(in C++ the former is undefined behaviour — the mask the claim describes
is absent from the source). -/
theorem claim_C3_shift_amount_not_masked :
    alu_unit sllInstr 1 32 0 = 0
    ∧ alu_unit sllInstr 1 0 0 = 1
    ∧ alu_unit sllInstr 1 32 0 ≠ alu_unit sllInstr 1 0 0 := by
  decide

/-- Claim C4 (counterexample): the word `0x00004073` — opcode SYS with
`func3 = 4`, an undefined func3 for a known opcode — drives `Core::decode`
into the `std::abort()` of the CSR `switch (func3)` default (`decode.cpp`
line 669), so decode failure is not always reported as a recoverable
typed result. -/
theorem claim_C4_cex_sys_func3_aborts :
    decode 0x00004073 = DecodeResult.abort := by
  decide

/-- Claim C4 (amended): an opcode absent from `sc_instTable` is reported
recoverably as a null result, but a SYS word with undefined `func3 = 4`
(`0x00004073`) and a SYS `func3 = 0` word whose immediate lies outside
{ECALL, EBREAK, URET, SRET, MRET} (`0x00300073`) abort the process. -/
theorem claim_C4_amended_nullptr_or_sys_abort :
    (∀ w : Nat, instTable (w &&& 0x7F) = none → decode w = DecodeResult.nullptr)
    ∧ decode 0x00004073 = DecodeResult.abort
    ∧ decode 0x00300073 = DecodeResult.abort := by
  refine ⟨?_, by decide, by decide⟩
  intro w hw
  simp only [decode, hw]

/-- Witness for the amended claim C4, at the all-zero word (opcode 0 is
not in the format table). -/
theorem claim_C4_witness : decode 0 = DecodeResult.nullptr :=
  claim_C4_amended_nullptr_or_sys_abort.1 0 (by decide)

/-- Claim C5: after any finite sequence of update calls starting from
construction, every GShare PHT counter and every GSharePlus meta counter
(and both GSharePlus sub-predictor PHTs) remain at most 3; they are `Nat`,
so they also remain at least 0. -/
theorem claim_C5_saturating_counters_bounded (b h : Nat)
    (l : List (Nat × Nat × Bool)) (x : Nat) :
    (x ∈ (runGShare b h l).PHT → x ≤ 3)
    ∧ (x ∈ (runGSharePlus b h l).meta_predictor → x ≤ 3)
    ∧ (x ∈ (runGSharePlus b h l).local_predictor.PHT → x ≤ 3)
    ∧ (x ∈ (runGSharePlus b h l).global_predictor.PHT → x ≤ 3) := by
  have hg : ∀ y ∈ (runGShare b h l).PHT, y ≤ 3 :=
    runGShare_cons_bounded l _ (init_PHT_bounded b h)
  have hmeta : ∀ y ∈ (GSharePlus.init b h).meta_predictor, y ≤ 3 := by
    intro y hy
    simp only [GSharePlus.init, List.mem_replicate] at hy
    omega
  have hp := runGSharePlus_bounded l (GSharePlus.init b h) hmeta
    (change_default_bounded _ _ (by omega))
    (change_default_bounded _ _ (by omega))
  exact ⟨fun hx => hg x hx, fun hx => hp.1 x hx, fun hx => hp.2.1 x hx,
    fun hx => hp.2.2 x hx⟩

/-- Witness for claim C5: one concrete update on each predictor. -/
theorem claim_C5_witness : (1 : Nat) ≤ 3 ∧ (2 : Nat) ≤ 3 :=
  ⟨(claim_C5_saturating_counters_bounded 4 2 [(0, 8, true)] 1).1 (by decide),
   (claim_C5_saturating_counters_bounded 4 2 [(0, 8, true)] 2).2.1 (by decide)⟩

/-- Claim C6: `GShare::update` writes the PHT at `predictIndex`, the index
computed from the BHR value before this update advances it — by
construction the very index `GShare::predict` reads in the same state —
and leaves every other PHT counter unchanged. -/
theorem claim_C6_update_uses_pre_update_BHR_index (s : GShare)
    (PC next_PC : Nat) (taken : Bool) :
    (s.update PC next_PC taken).PHT
        = s.PHT.set (s.predictIndex PC)
            (satUpdate (s.PHT.getD (s.predictIndex PC) 0) taken)
    ∧ ∀ j, j ≠ s.predictIndex PC →
        (s.update PC next_PC taken).PHT.getD j 0 = s.PHT.getD j 0 := by
  refine ⟨rfl, ?_⟩
  intro j hj
  show (s.PHT.set (s.predictIndex PC) _).getD j 0 = s.PHT.getD j 0
  simp only [List.getD_eq_getElem?_getD, List.getElem?_set_ne (Ne.symm hj)]

/-- Witness for claim C6, on a freshly constructed GShare at index 1
(distinct from the updated index 0). -/
theorem claim_C6_witness :
    ((GShare.init 4 2).update 0 8 true).PHT.getD 1 0
      = (GShare.init 4 2).PHT.getD 1 0 :=
  (claim_C6_update_uses_pre_update_BHR_index (GShare.init 4 2) 0 8 true).2 1 (by decide)

/-- Claim C7: when the PHT counter predicts taken, `GShare::predict`
returns the stored BTB target exactly when the indexed BTB entry is valid
and its tag equals `PC >> 2 >> BTB_shift`; with a tag mismatch (or invalid
entry) it falls back to `PC + 4`. -/
theorem claim_C7_btb_requires_tag_match (s : GShare) (PC : Nat)
    (htaken : 2 ≤ s.PHT.getD (s.predictIndex PC) 0) :
    ((s.BTB.getD ((PC >>> 2) &&& s.BTB_mask) ⟨false, 0, 0⟩).valid = true
        ∧ (s.BTB.getD ((PC >>> 2) &&& s.BTB_mask) ⟨false, 0, 0⟩).tag
            = (PC >>> 2) >>> s.BTB_shift
      → s.predict PC
          = (s.BTB.getD ((PC >>> 2) &&& s.BTB_mask) ⟨false, 0, 0⟩).br_target)
    ∧ (¬ ((s.BTB.getD ((PC >>> 2) &&& s.BTB_mask) ⟨false, 0, 0⟩).valid = true
          ∧ (s.BTB.getD ((PC >>> 2) &&& s.BTB_mask) ⟨false, 0, 0⟩).tag
              = (PC >>> 2) >>> s.BTB_shift)
      → s.predict PC = PC + 4) := by
  simp only [GShare.predict]
  rw [if_pos htaken]
  constructor
  · intro h'
    rw [if_pos h']
  · intro h'
    rw [if_neg h']

/-- Witness for claim C7: in `aliasGShare` the counter predicts taken and
the BTB entry is valid, but its tag `5` differs from the required tag `0`
for `PC = 0`, so predict falls back to `0 + 4`. -/
theorem claim_C7_witness : aliasGShare.predict 0 = 0 + 4 :=
  (claim_C7_btb_requires_tag_match aliasGShare 0 (by decide)).2 (by decide)

/-- Claim C8: for a load instruction reading a byte of value `0xFF`,
`Core::mem_access` with `func3 = 4` (LBU) zero-extends to `0x000000FF`
and with `func3 = 0` (LB) sign-extends to `0xFFFFFFFF`; in both cases the
byte count `1 << (func3 & 0b11)` equals 1. -/
theorem claim_C8_load_byte_extension (i : Instr) (mem : Nat → Nat)
    (addr rs2 : Nat) (hl : i.exeFlags.is_load = true)
    (hs : i.exeFlags.is_store = false) (hc : i.exeFlags.is_csr = false)
    (hm : mem addr = 0xFF) :
    (i.func3 = 4 → mem_access i addr rs2 mem = some (0xFF, mem)
        ∧ 1 <<< (i.func3 &&& 0x3) = 1)
    ∧ (i.func3 = 0 → mem_access i addr rs2 mem = some (0xFFFFFFFF, mem)
        ∧ 1 <<< (i.func3 &&& 0x3) = 1) := by
  constructor <;> intro h3 <;> refine ⟨?_, by rw [h3]; decide⟩
  · simp only [mem_access, hl, hs, hc, h3, readBytes, sext, hm]
    norm_num
  · simp only [mem_access, hl, hs, hc, h3, readBytes, sext, hm]
    norm_num
    decide

/-- Witness for claim C8, on the concrete LBU instruction over a memory
holding `0xFF` everywhere. -/
theorem claim_C8_witness :
    (mem_access loadLBU 0 0 (fun _ => 0xFF)).map Prod.fst = some 0xFF := by
  have h := (claim_C8_load_byte_extension loadLBU (fun _ => 0xFF) 0 0
    rfl rfl rfl rfl).1 rfl
  rw [h.1]
  rfl

/-- Claim C9: for an instruction whose branch operation is NONE,
`Core::branch_unit` performs none of its effects: `rd_data` is returned
unchanged, the authoritative PC is not overwritten, the fetch-stage latch
is not reset, the predictor's update is never invoked, and neither
performance counter is incremented. -/
theorem claim_C9_nonbranch_leaves_state_unchanged (i : Instr)
    (rs1 rs2 rd PC if_id_PC : Nat) (en : Bool) (h : i.brOp = BrOp.NONE) :
    branch_unit i rs1 rs2 rd PC if_id_PC en =
      { rd_data := rd, redirect := none, flush := false, bpred_update := none,
        branches_incr := false, miss_incr := false } := by
  simp [branch_unit, h]

/-- Witness for claim C9, on a concrete non-branch instruction. -/
theorem claim_C9_witness :
    branch_unit nonBranchInstr 1 2 7 100 104 true =
      { rd_data := 7, redirect := none, flush := false, bpred_update := none,
        branches_incr := false, miss_incr := false } :=
  claim_C9_nonbranch_leaves_state_unchanged nonBranchInstr 1 2 7 100 104 true rfl

/-- Claim C10: a freshly constructed GShare has every PHT counter at 0, so
`predict` returns `PC + 4` for every PC; a freshly constructed GSharePlus
overrides both of its sub-predictors' PHT counters to 2 (weakly taken). -/
theorem claim_C10_fresh_predictor_defaults (b h PC : Nat) :
    (GShare.init b h).PHT = List.replicate (1 <<< h) 0
    ∧ (GShare.init b h).predict PC = PC + 4
    ∧ (GSharePlus.init b h).local_predictor.PHT = List.replicate (1 <<< h) 2
    ∧ (GSharePlus.init b h).global_predictor.PHT = List.replicate (1 <<< 12) 2 := by
  refine ⟨rfl, ?_, ?_, ?_⟩
  · simp [GShare.predict, GShare.init, getD_replicate]
  · show (List.replicate (1 <<< h) (0 : Nat)).map (fun _ => 2)
        = List.replicate (1 <<< h) 2
    rw [List.map_replicate]
  · show (List.replicate (1 <<< 12) (0 : Nat)).map (fun _ => 2)
        = List.replicate (1 <<< 12) 2
    rw [List.map_replicate]

end TinyRV
